import Mathlib

/-!
# Animal Dominion rules engine — verification development

Shallow embedding of the rules engine in `game.py` (two-player ecological
card game).  The card catalog (`data.py`) is an external, immutable lookup
table supplied to the engine, so every definition is parameterised by a
total catalog function `CARD_INDEX : String → Card`.

Numeric conventions of the embedding:
* Python `int` counters that the code can in principle drive negative
  (`biome.cn`) are modelled as `Int`; counters that only ever receive
  non-negative assignments (`cc`, `cn_temp`, `hunger`, `actions_used`)
  are `Nat`, with `max(h - 1, 0)` rendered as truncated subtraction.
* The float operations of the source coincide with integer formulas on
  the reachable ranges and are embedded as such:
  `int(weightKg / 10)` is `weightKg / 10` (Nat division),
  `int(0.20 * ws)` for `ws ≤ 100` is `ws / 5`,
  `int(0.25 * ws)` for `ws ≤ 100` is `ws / 4`,
  `math.ceil(level / 2)` is `(level + 1) / 2`,
  `math.floor(0.40 * cc)` is `2 * cc / 5`.
* Python mutates instance objects in place; the embedding updates list
  entries keyed by `instance_id`, which agrees with the source under the
  game's id-uniqueness invariant.
-/

namespace AnimalDominion

/-- Catalog entry (`CARD_INDEX[card_id]` in the source): static card data. -/
structure Card where
  kind : String
  name : String
  cnPerTurn : Nat
  type : String
  level : Nat
  attack : Nat
  defense : Nat
  instinct : Nat
  mobility : Nat
  weightKg : Nat
  deriving DecidableEq

/-- A live animal on the table. -/
structure AnimalInstance where
  instance_id : Nat
  card_id : String
  owner : Nat
  hunger : Nat
  deriving DecidableEq

/-- A plant on the table. -/
structure PlantInstance where
  instance_id : Nat
  card_id : String
  owner : Nat
  deriving DecidableEq

/-- Per-player state. -/
structure PlayerState where
  name : String
  deck : List String
  hand : List String
  pending_control : Bool
  deriving DecidableEq

/-- Biome bookkeeping; `cn` is `Int` because the source's subtractions are
what the non-negativity claims are about. -/
structure BiomeState where
  name : String
  cn_base : Nat
  lmax : Nat
  cc : Nat
  cn_temp : Nat
  cn : Int
  deriving DecidableEq

/-- The aggregate game state mutated by every engine entry point. -/
structure GameState where
  players : List PlayerState
  biome : BiomeState
  animals : List AnimalInstance
  plants : List PlantInstance
  active_player_index : Nat
  actions_used : Nat
  next_instance_id : Nat
  log : List String
  winner : Option String
  deriving DecidableEq

/-- `GameState.add_log` from the source: append one line to the log. -/
def GameState.add_log (s : GameState) (message : String) : GameState :=
  { s with log := s.log ++ [message] }

/-- Placeholder used where the source would raise `IndexError`; the engine
only ever indexes `players` in range. -/
def defaultPlayer : PlayerState := ⟨"", [], [], false⟩

/-- Placeholder for out-of-range animal indexing (guarded against by the
length test in the duel branch, as in the source). -/
def defaultAnimal : AnimalInstance := ⟨0, "", 0, 0⟩

variable (CARD_INDEX : String → Card)

/-- `check_control`: true iff the player owns a live animal at every exact
level `1..lmax`. -/
def check_control (s : GameState) (player_index : Nat) : Bool :=
  (List.range' 1 s.biome.lmax).all (fun level =>
    s.animals.any (fun a =>
      (CARD_INDEX a.card_id).level == level && a.owner == player_index))

/-- Loop body of `draw_to_hand`: move cards from the front of the deck to
the hand while the hand is below the target size. -/
def draw_loop (target_size : Nat) :
    List String → List String → List String × List String
  | hand, [] => (hand, [])
  | hand, c :: rest =>
    if hand.length < target_size then draw_loop target_size (hand ++ [c]) rest
    else (hand, c :: rest)

/-- `draw_to_hand` applied to the active player. -/
def draw_to_hand (s : GameState) (target_size : Nat) : GameState :=
  let i := s.active_player_index
  let player := s.players.getD i defaultPlayer
  let hd := draw_loop target_size player.hand player.deck
  let s' := { s with players := s.players.set i { player with hand := hd.1, deck := hd.2 } }
  s'.add_log (player.name ++ " roba cartas en mano.")

/-- `start_turn`: confirming win check, then reset actions, recompute `cn`,
consume `cn_temp`, log, and draw to 8. -/
def start_turn (s : GameState) : GameState :=
  let player := s.players.getD s.active_player_index defaultPlayer
  if player.pending_control && check_control CARD_INDEX s s.active_player_index then
    ({ s with winner := some player.name }).add_log
      (player.name ++ " mantiene el control completo y gana la partida.")
  else
    let s := { s with actions_used := 0 }
    let cnNew : Nat := s.biome.cn_base + s.biome.cn_temp +
      (s.plants.map (fun p => (CARD_INDEX p.card_id).cnPerTurn)).sum
    let s := { s with biome := { s.biome with cn := (cnNew : Int), cn_temp := 0 } }
    let s := s.add_log ("Inicio de turno de " ++ player.name ++ ".")
    draw_to_hand s 8

/-- `find_viable_prey`: live Herbivore/Omnivore instances of level at least
`ceil(predator_level / 2)`, any owner. -/
def find_viable_prey (s : GameState) (predator_level : Nat) : List AnimalInstance :=
  let threshold := (predator_level + 1) / 2
  s.animals.filter (fun a =>
    ((CARD_INDEX a.card_id).type == "Herbivore"
      || (CARD_INDEX a.card_id).type == "Omnivore")
    && threshold ≤ (CARD_INDEX a.card_id).level)

/-- `can_play_animal`: legality of deploying an animal card, with the
failure log entries of the source. -/
def can_play_animal (s : GameState) (card : Card) : GameState × Bool :=
  let biome_cn := s.biome.cn
  let level := card.level
  let has_prey := !(find_viable_prey CARD_INDEX s level).isEmpty
  if card.type == "Herbivore" then
    if (level : Int) ≤ biome_cn then (s, true)
    else (s.add_log "No hay CN suficiente para desplegar herbivoro.", false)
  else if card.type == "Carnivore" then
    if has_prey then (s, true)
    else (s.add_log "No hay presas viables para desplegar carnivoro.", false)
  else if card.type == "Omnivore" then
    if (level : Int) ≤ biome_cn || has_prey then (s, true)
    else (s.add_log "Omnivoro requiere CN suficiente o presa viable.", false)
  else (s.add_log "Tipo de animal invalido.", false)

/-- `play_card`: validate and apply a single card play. -/
def play_card (s : GameState) (card_id : String) : GameState × Bool :=
  if s.winner.isSome then (s.add_log "La partida ya termino.", false)
  else
    let player := s.players.getD s.active_player_index defaultPlayer
    if !(player.hand.contains card_id) then
      (s.add_log "Esa carta no esta en la mano.", false)
    else if 3 ≤ s.actions_used then
      (s.add_log "Ya usaste las 3 acciones del turno.", false)
    else
      let card := CARD_INDEX card_id
      if card.kind == "plant" then
        let plant : PlantInstance := ⟨s.next_instance_id, card_id, s.active_player_index⟩
        let s := { s with
          next_instance_id := s.next_instance_id + 1,
          plants := s.plants ++ [plant],
          players := s.players.set s.active_player_index
            { player with hand := player.hand.erase card_id },
          actions_used := s.actions_used + 1 }
        (s.add_log (player.name ++ " juega planta."), true)
      else if card.kind == "animal" then
        let ca := can_play_animal CARD_INDEX s card
        if ca.2 then
          let animal : AnimalInstance := ⟨s.next_instance_id, card_id, s.active_player_index, 0⟩
          let s := { s with
            next_instance_id := s.next_instance_id + 1,
            animals := s.animals ++ [animal],
            players := s.players.set s.active_player_index
              { player with hand := player.hand.erase card_id },
            actions_used := s.actions_used + 1 }
          (s.add_log (player.name ++ " juega animal."), true)
        else (ca.1, false)
      else (s.add_log "Tipo de carta desconocido.", false)

/-- `is_viable_prey`: the per-target viability test used by the hunting
phase; same threshold as `find_viable_prey`. -/
def is_viable_prey (predator_level : Nat) (prey : AnimalInstance) : Bool :=
  let threshold := (predator_level + 1) / 2
  let prey_card := CARD_INDEX prey.card_id
  (prey_card.type == "Herbivore" || prey_card.type == "Omnivore")
    && threshold ≤ prey_card.level

/-- `min(100, truncate(weightKg / 10))`: the capped weight contribution of
a combatant. -/
def weight_scaled (c : Card) : Nat := min 100 (c.weightKg / 10)

/-- `attack + truncate(0.20 × weightScaled)` (for `ws ≤ 100` the float
truncation is exactly `ws / 5`). -/
def attack_score (c : Card) : Nat := c.attack + weight_scaled c / 5

/-- `defense + truncate(0.25 × weightScaled)` (for `ws ≤ 100` the float
truncation is exactly `ws / 4`). -/
def defense_score (c : Card) : Nat := c.defense + weight_scaled c / 4

/-- Combat part of `resolve_single_hunt` (after the evasion check). -/
def hunt_combat (s : GameState) (predator prey : AnimalInstance) : GameState × Bool :=
  let predator_card := CARD_INDEX predator.card_id
  let prey_card := CARD_INDEX prey.card_id
  if defense_score prey_card ≤ attack_score predator_card then
    let new_hunger := if prey_card.level == predator_card.level then 0 else predator.hunger - 1
    let s := s.add_log "El depredador elimina a la presa."
    let s := { s with
      animals := (s.animals.filter (fun a => a.instance_id != prey.instance_id)).map
        (fun a => if a.instance_id == predator.instance_id
                  then { a with hunger := new_hunger } else a),
      biome := { s.biome with cc := s.biome.cc + prey_card.level } }
    (s, true)
  else (s.add_log "La presa resiste el combate.", false)

/-- `resolve_single_hunt`: evasion check, then combat. -/
def resolve_single_hunt (s : GameState) (predator prey : AnimalInstance) :
    GameState × Bool :=
  let predator_card := CARD_INDEX predator.card_id
  let prey_card := CARD_INDEX prey.card_id
  if prey_card.instinct ≤ predator_card.instinct then
    hunt_combat CARD_INDEX (s.add_log "Instinto favorece al depredador.") predator prey
  else if predator_card.mobility < prey_card.mobility then
    (s.add_log "La presa escapa por movilidad superior.", false)
  else
    hunt_combat CARD_INDEX (s.add_log "El depredador alcanza a la presa.") predator prey

/-- Loop of `resolve_hunting` over the snapshot list of candidate
predators.  A choice of `0` is falsy in Python and counts as no target. -/
def hunt_loop (choices : Nat → Option Nat) :
    List AnimalInstance → GameState → List Nat → GameState × List Nat
  | [], s, fed => (s, fed)
  | predator :: rest, s, fed =>
    let predator_card := CARD_INDEX predator.card_id
    match choices predator.instance_id with
    | none => hunt_loop choices rest (s.add_log "Sin objetivo de caza.") fed
    | some prey_id =>
      if prey_id == 0 then hunt_loop choices rest (s.add_log "Sin objetivo de caza.") fed
      else
        match s.animals.find? (fun a => a.instance_id == prey_id) with
        | none => hunt_loop choices rest (s.add_log "Objetivo invalido.") fed
        | some prey =>
          if is_viable_prey CARD_INDEX predator_card.level prey then
            let r := resolve_single_hunt CARD_INDEX s predator prey
            if r.2 then hunt_loop choices rest r.1 (fed ++ [predator.instance_id])
            else hunt_loop choices rest r.1 fed
          else hunt_loop choices rest (s.add_log "No puede cazar esa presa.") fed

/-- Predicate for hunting candidates: live Carnivore/Omnivore with
`hunger ≥ 1`. -/
def is_hunting_candidate (a : AnimalInstance) : Bool :=
  ((CARD_INDEX a.card_id).type == "Carnivore"
    || (CARD_INDEX a.card_id).type == "Omnivore") && 1 ≤ a.hunger

/-- `resolve_hunting`: fix the candidate list once, then run every hunt;
returns the new state and the ids of predators fed by hunting. -/
def resolve_hunting (s : GameState) (choices : Nat → Option Nat) :
    GameState × List Nat :=
  let predators := s.animals.filter (is_hunting_candidate CARD_INDEX)
  if predators.isEmpty then (s.add_log "No hay depredadores con hambre para cazar.", [])
  else hunt_loop CARD_INDEX choices predators (s.add_log "Fase de caza iniciada.") []

/-- Membership test for the feeding group of one level: Herbivore or
Omnivore of that exact level. -/
def herb_omni_at (level : Nat) (a : AnimalInstance) : Bool :=
  ((CARD_INDEX a.card_id).type == "Herbivore"
    || (CARD_INDEX a.card_id).type == "Omnivore")
  && (CARD_INDEX a.card_id).level == level

/-- The Herbivore/Omnivore instances of one exact level (the group the
feeding phase works on). -/
def level_members (animals : List AnimalInstance) (level : Nat) : List AnimalInstance :=
  animals.filter (herb_omni_at CARD_INDEX level)

/-- Stable insertion into a weight-descending list; an incoming element
goes in front of equal weights, which reproduces Python's stable
`sorted(..., reverse=True)` when building from the right. -/
def weight_insert (x : AnimalInstance) : List AnimalInstance → List AnimalInstance
  | [] => [x]
  | y :: ys =>
    if (CARD_INDEX y.card_id).weightKg ≤ (CARD_INDEX x.card_id).weightKg
    then x :: y :: ys else y :: weight_insert x ys

/-- Stable sort by `weightKg` descending (ties keep original order). -/
def sort_by_weight_desc : List AnimalInstance → List AnimalInstance
  | [] => []
  | x :: xs => weight_insert CARD_INDEX x (sort_by_weight_desc xs)

/-- One iteration of the feeding level loop of `resolve_feeding`. -/
def feed_level (level : Nat) (s : GameState) : GameState :=
  let la := level_members CARD_INDEX s.animals level
  let member : AnimalInstance → Bool := herb_omni_at CARD_INDEX level
  if la.isEmpty then s
  else
    let total_needed := level * la.length
    if (total_needed : Int) ≤ s.biome.cn then
      ({ s with
        biome := { s.biome with cn := s.biome.cn - (total_needed : Int) },
        animals := s.animals.map (fun a =>
          if member a then { a with hunger := 0 } else a) }).add_log
        "Todos comen en este nivel."
    else
      let s := s.add_log "CN insuficiente en este nivel."
      let duel_candidates := sort_by_weight_desc CARD_INDEX la
      if 2 ≤ duel_candidates.length ∧ (level : Int) ≤ s.biome.cn then
        let w := duel_candidates.getD 0 defaultAnimal
        let l := duel_candidates.getD 1 defaultAnimal
        ({ s with
          biome := { s.biome with cn := s.biome.cn - (level : Int) },
          animals := s.animals.map (fun a =>
            if member a then
              (if a.instance_id == w.instance_id then { a with hunger := 0 }
               else if a.instance_id == l.instance_id then { a with hunger := a.hunger + 1 }
               else { a with hunger := a.hunger + 1 })
            else a) }).add_log "Duelo ecologico."
      else
        ({ s with animals := s.animals.map (fun a =>
          if member a then { a with hunger := a.hunger + 1 } else a) }).add_log
          "No hay CN suficiente para duelo."

/-- Predicate for the post-loop pass: strictly-Carnivore instance not fed
by hunting this turn. -/
def is_unfed_carnivore (fed_predators : List Nat) (a : AnimalInstance) : Bool :=
  (CARD_INDEX a.card_id).type == "Carnivore"
    && !(fed_predators.contains a.instance_id)

/-- `resolve_feeding`: ascending level loop, then the unfed-carnivore
hunger pass. -/
def resolve_feeding (s : GameState) (fed_predators : List Nat) : GameState :=
  let s := s.add_log "Fase de alimentacion de CN."
  let s := (List.range' 1 s.biome.lmax).foldl
    (fun t level => feed_level CARD_INDEX level t) s
  let unfed := s.animals.filter (is_unfed_carnivore CARD_INDEX fed_predators)
  if unfed.isEmpty then s
  else
    ({ s with animals := s.animals.map (fun a =>
      if is_unfed_carnivore CARD_INDEX fed_predators a
      then { a with hunger := a.hunger + 1 } else a) }).add_log
      "Carnivoros sin presa aumentan hambre."

/-- `resolve_starvation`: animals at `hunger ≥ 2` die; each adds its level
to `cc`. -/
def resolve_starvation (s : GameState) : GameState :=
  let dead := s.animals.filter (fun a => decide (2 ≤ a.hunger))
  if dead.isEmpty then s.add_log "No hay muertes por hambre."
  else
    let deadLevels : Nat := (dead.map (fun a => (CARD_INDEX a.card_id).level)).sum
    let s := { s with biome := { s.biome with cc := s.biome.cc + deadLevels } }
    let s := s.add_log "Mueren animales por hambre."
    { s with animals := s.animals.filter (fun a => decide (a.hunger < 2)) }

/-- `resolve_conversion`: `cn_temp := floor(0.40 * cc)` (embedded as
`2 * cc / 5`), then `cc := 0`. -/
def resolve_conversion (s : GameState) : GameState :=
  let s := { s with biome := { s.biome with cn_temp := 2 * s.biome.cc / 5 } }
  let s := s.add_log "Conversion de CC a CN temporal."
  { s with biome := { s.biome with cc := 0 } }

/-- `end_turn`: no-op once a winner exists; otherwise the full pipeline,
the end-of-turn control check, player advance, and the chained
`start_turn`. -/
def end_turn (s : GameState) (hunting_choices : Nat → Option Nat) : GameState :=
  if s.winner.isSome then s
  else
    let hf := resolve_hunting CARD_INDEX s hunting_choices
    let s := resolve_feeding CARD_INDEX hf.1 hf.2
    let s := resolve_starvation CARD_INDEX s
    let s := resolve_conversion s
    let i := s.active_player_index
    let active := s.players.getD i defaultPlayer
    let s :=
      if check_control CARD_INDEX s i then
        let t := { s with players := s.players.set i { active with pending_control := true } }
        t.add_log (active.name ++ " logra amenaza de control.")
      else
        { s with players := s.players.set i { active with pending_control := false } }
    let s := { s with active_player_index := (s.active_player_index + 1) % s.players.length }
    start_turn CARD_INDEX s

/-- `start_game`, parameterised by the already-shuffled decks (the shuffle
is the only randomness; quantifying over deck lists covers every
permutation). -/
def start_game_with (deck1 deck2 : List String) : GameState :=
  let players : List PlayerState :=
    [⟨"Jugador 1", deck1, [], false⟩, ⟨"Jugador 2", deck2, [], false⟩]
  let biome : BiomeState := ⟨"Bosque", 4, 6, 0, 0, 0⟩
  let s : GameState := ⟨players, biome, [], [], 0, 0, 1, [], none⟩
  let s := s.add_log "Juego iniciado en el bioma Bosque."
  start_turn CARD_INDEX s

/-- States reachable through the engine's public entry points. -/
inductive Reachable : GameState → Prop
  | start (deck1 deck2 : List String) :
      Reachable (start_game_with CARD_INDEX deck1 deck2)
  | play (s : GameState) (card_id : String) (h : Reachable s) :
      Reachable (play_card CARD_INDEX s card_id).1
  | turn (s : GameState) (choices : Nat → Option Nat) (h : Reachable s) :
      Reachable (end_turn CARD_INDEX s choices)

/-- Equality of every rules-relevant state field; the append-only log,
which the spec treats as purely observational, is the only field left
out. -/
def SameCore (t s : GameState) : Prop :=
  t.players = s.players ∧ t.biome = s.biome ∧ t.animals = s.animals ∧
  t.plants = s.plants ∧ t.active_player_index = s.active_player_index ∧
  t.actions_used = s.actions_used ∧ t.next_instance_id = s.next_instance_id ∧
  t.winner = s.winner

/-- Concrete animal card builder for test catalogs. -/
def animalCard (t : String) (level attack defense instinct mobility weightKg : Nat) : Card :=
  ⟨"animal", t, 0, t, level, attack, defense, instinct, mobility, weightKg⟩

/-- A small concrete catalog used by witnesses and counterexamples. -/
def CARDtest : String → Card := fun id =>
  if id == "p" then ⟨"plant", "p", 100, "", 0, 0, 0, 0, 0, 0⟩
  else if id == "h1" then animalCard "Herbivore" 1 0 0 0 0 100
  else if id == "h2" then animalCard "Herbivore" 2 0 0 0 0 200
  else if id == "h3" then animalCard "Herbivore" 3 0 0 0 0 500
  else if id == "h3b" then animalCard "Herbivore" 3 0 0 0 0 300
  else if id == "h4" then animalCard "Herbivore" 4 0 0 0 0 100
  else if id == "h5" then animalCard "Herbivore" 5 0 0 0 0 100
  else if id == "h6" then animalCard "Herbivore" 6 0 0 0 0 100
  else if id == "c4" then animalCard "Carnivore" 4 50 10 5 5 800
  else if id == "hB" then animalCard "Herbivore" 4 0 40 5 5 300
  else if id == "oA" then animalCard "Omnivore" 2 50 0 5 5 100
  else if id == "oB" then animalCard "Omnivore" 2 50 0 5 5 100
  else if id == "hC" then animalCard "Herbivore" 3 0 0 0 0 100
  else ⟨"none", "none", 0, "none", 0, 0, 0, 0, 0, 0⟩

/-- Two idle players, used by several concrete states. -/
def idlePlayers : List PlayerState :=
  [⟨"Jugador 1", [], [], false⟩, ⟨"Jugador 2", [], [], false⟩]

/-- Finished game (winner already set). -/
def sWin : GameState :=
  ⟨idlePlayers, ⟨"Bosque", 4, 6, 0, 0, 0⟩, [], [], 0, 0, 1, [], some "Jugador 1"⟩

/-- Player 0 has `pending_control` set but no animals at all, so the
confirming `check_control` fails at the next `start_turn`. -/
def sC1 : GameState :=
  ⟨[⟨"Jugador 1", [], [], true⟩, ⟨"Jugador 2", [], [], false⟩],
    ⟨"Bosque", 4, 6, 0, 0, 0⟩, [], [], 0, 0, 1, [], none⟩

/-- Like `sC1` but with one animal and a used action, for the amended-claim
witness. -/
def sC1w : GameState :=
  ⟨[⟨"Jugador 1", [], [], true⟩, ⟨"Jugador 2", [], [], false⟩],
    ⟨"Bosque", 4, 6, 0, 0, 2⟩, [⟨1, "h3", 0, 0⟩], [], 0, 2, 2, [], none⟩

/-- Scenario B table: a hungry level-4 carnivore (attack 50, 800 kg) and a
level-4 herbivore (defense 40, 300 kg). -/
def sB : GameState :=
  ⟨idlePlayers, ⟨"Bosque", 4, 6, 0, 0, 4⟩,
    [⟨1, "c4", 0, 1⟩, ⟨2, "hB", 1, 0⟩], [], 0, 0, 3, [], none⟩

/-- Scenario C table: two level-3 herbivores (300 kg and 500 kg) with
`cn = 3` at feeding time. -/
def sC5 : GameState :=
  ⟨idlePlayers, ⟨"Bosque", 4, 6, 0, 0, 3⟩,
    [⟨1, "h3b", 0, 0⟩, ⟨2, "h3", 1, 0⟩], [], 0, 0, 3, [], none⟩

/-- A lone hungry carnivore, for the unfed-carnivore feeding pass. -/
def sC6 : GameState :=
  ⟨idlePlayers, ⟨"Bosque", 4, 6, 0, 0, 4⟩,
    [⟨1, "c4", 0, 1⟩], [], 0, 0, 2, [], none⟩

/-- Player 0 holds full level-1..6 coverage with `pending_control` set and
one action already used: the confirming `start_turn` declares the winner
without resetting `actions_used`. -/
def s8 : GameState :=
  ⟨[⟨"Jugador 1", [], [], true⟩, ⟨"Jugador 2", [], [], false⟩],
    ⟨"Bosque", 4, 6, 0, 0, 0⟩,
    [⟨1, "h1", 0, 0⟩, ⟨2, "h2", 0, 0⟩, ⟨3, "h3", 0, 0⟩,
     ⟨4, "h4", 0, 0⟩, ⟨5, "h5", 0, 0⟩, ⟨6, "h6", 0, 0⟩],
    [], 0, 1, 7, [], none⟩

/-- Hunting-phase chain: hungry omnivore 1 eats hungry omnivore 2, which
then still resolves its own hunt against herbivore 3. -/
def s10 : GameState :=
  ⟨idlePlayers, ⟨"Bosque", 4, 6, 0, 0, 0⟩,
    [⟨1, "oA", 0, 1⟩, ⟨2, "oB", 1, 1⟩, ⟨3, "hC", 0, 0⟩], [], 0, 0, 4, [], none⟩

/-- Hunting choices for `s10`: predator 1 targets 2, predator 2 targets 3. -/
def ch10 : Nat → Option Nat := fun n =>
  if n == 1 then some 2 else if n == 2 then some 3 else none

/-! ## Helper lemmas -/

/-- `add_log` leaves the biome untouched. -/
theorem add_log_biome (s : GameState) (m : String) : (s.add_log m).biome = s.biome := rfl

/-- `add_log` leaves the animals untouched. -/
theorem add_log_animals (s : GameState) (m : String) : (s.add_log m).animals = s.animals := rfl

/-- Replacing the animal list leaves the biome untouched. -/
theorem set_animals_biome (s : GameState) (F : List AnimalInstance) :
    ({ s with animals := F } : GameState).biome = s.biome := rfl

/-- The Feeding Resolver's biome is fully determined by the level loop;
the trailing unfed-carnivore pass only touches animals and the log. -/
theorem resolve_feeding_biome (CARD : String → Card) (s : GameState) (fed : List Nat) :
    (resolve_feeding CARD s fed).biome
      = ((List.range' 1 s.biome.lmax).foldl (fun t L => feed_level CARD L t)
          (s.add_log "Fase de alimentacion de CN.")).biome := by
  simp only [resolve_feeding]
  split
  · rfl
  · rfl

/-- `getD` after `set` at the same in-range index returns the new value. -/
theorem getD_set_self {α : Type} (l : List α) (i : Nat) (a d : α) (h : i < l.length) :
    (l.set i a).getD i d = a := by
  simp [List.getD_eq_getElem?_getD, List.getElem?_set_self h]

/-- Membership in `find_viable_prey`: live Herbivore/Omnivore with level at
least `(L + 1) / 2`, i.e. `⌈L / 2⌉`, any owner. -/
theorem mem_find_viable_prey (CARD : String → Card) (s : GameState) (L : Nat)
    (a : AnimalInstance) :
    a ∈ find_viable_prey CARD s L ↔
      a ∈ s.animals ∧
      ((CARD a.card_id).type = "Herbivore" ∨ (CARD a.card_id).type = "Omnivore") ∧
      (L + 1) / 2 ≤ (CARD a.card_id).level := by
  simp [find_viable_prey, List.mem_filter, Bool.and_eq_true, Bool.or_eq_true,
    beq_iff_eq, decide_eq_true_eq, and_assoc]

/-! ## C2 -/

/-- C2: `check_control` is true iff the player owns a live animal of every
exact level `1..lmax`, and `start_turn` declares the active player winner —
setting `winner` and doing nothing else beyond the log line, so the rest of
the turn-start pipeline is skipped — exactly when their `pending_control`
flag is set and `check_control` holds at that moment. -/
theorem check_control_spec (CARD : String → Card) (s : GameState) (i : Nat) :
    (check_control CARD s i = true ↔
      ∀ level, 1 ≤ level → level ≤ s.biome.lmax →
        ∃ a ∈ s.animals, (CARD a.card_id).level = level ∧ a.owner = i) ∧
    ((s.players.getD s.active_player_index defaultPlayer).pending_control = true ∧
        check_control CARD s s.active_player_index = true →
      start_turn CARD s =
        ({ s with winner := some (s.players.getD s.active_player_index defaultPlayer).name }).add_log
          ((s.players.getD s.active_player_index defaultPlayer).name ++
            " mantiene el control completo y gana la partida.")) ∧
    (¬((s.players.getD s.active_player_index defaultPlayer).pending_control = true ∧
        check_control CARD s s.active_player_index = true) →
      (start_turn CARD s).winner = s.winner) := by
  refine ⟨?_, ?_, ?_⟩
  · simp only [check_control, List.all_eq_true, List.any_eq_true, List.mem_range'_1,
      Bool.and_eq_true, beq_iff_eq]
    constructor
    · intro h level h1 h2
      obtain ⟨a, ha, h3, h4⟩ := h level ⟨h1, by omega⟩
      exact ⟨a, ha, h3, h4⟩
    · rintro h level ⟨h1, h2⟩
      obtain ⟨a, ha, h3, h4⟩ := h level h1 (by omega)
      exact ⟨a, ha, h3, h4⟩
  · rintro ⟨hp, hc⟩
    simp only [start_turn]
    split
    · rfl
    · rename_i hfalse
      rw [hp, hc] at hfalse
      exact absurd rfl hfalse
  · intro h
    simp only [start_turn]
    split
    · rename_i htrue
      exact absurd ⟨Bool.and_elim_left htrue, Bool.and_elim_right htrue⟩ h
    · simp [draw_to_hand, GameState.add_log]

/-- Witness for C2 at `s8`: pending control plus full coverage makes the
confirming `start_turn` declare the winner. -/
theorem check_control_spec_witness :
    (start_turn CARDtest s8).winner = some "Jugador 1" := by
  have h := (check_control_spec CARDtest s8 0).2.1 ⟨by decide, by decide⟩
  rw [h]
  decide

/-! ## C3 -/

/-- C3: deploy legality. A Herbivore is legal iff `cn ≥ level`; a Carnivore
iff some viable prey exists on the table (live Herbivore/Omnivore of level
at least `(L + 1) / 2 = ⌈L / 2⌉`, regardless of owner); an Omnivore iff
either condition holds; anything else is illegal.  The final conjunct
characterises the viable-prey list itself. -/
theorem can_play_animal_spec (CARD : String → Card) (s : GameState) (card : Card) :
    ((can_play_animal CARD s card).2 = true ↔
      (card.type = "Herbivore" ∧ (card.level : Int) ≤ s.biome.cn) ∨
      (card.type = "Carnivore" ∧ ∃ a ∈ s.animals,
        ((CARD a.card_id).type = "Herbivore" ∨ (CARD a.card_id).type = "Omnivore") ∧
        (card.level + 1) / 2 ≤ (CARD a.card_id).level) ∨
      (card.type = "Omnivore" ∧ ((card.level : Int) ≤ s.biome.cn ∨ ∃ a ∈ s.animals,
        ((CARD a.card_id).type = "Herbivore" ∨ (CARD a.card_id).type = "Omnivore") ∧
        (card.level + 1) / 2 ≤ (CARD a.card_id).level))) ∧
    (∀ a, a ∈ find_viable_prey CARD s card.level ↔
      a ∈ s.animals ∧
      ((CARD a.card_id).type = "Herbivore" ∨ (CARD a.card_id).type = "Omnivore") ∧
      (card.level + 1) / 2 ≤ (CARD a.card_id).level) := by
  have hne : (!(find_viable_prey CARD s card.level).isEmpty) = true ↔
      ∃ a ∈ s.animals,
        ((CARD a.card_id).type = "Herbivore" ∨ (CARD a.card_id).type = "Omnivore") ∧
        (card.level + 1) / 2 ≤ (CARD a.card_id).level := by
    constructor
    · intro h
      have hnil : find_viable_prey CARD s card.level ≠ [] := by
        intro hn
        rw [hn] at h
        simp at h
      obtain ⟨a, ha⟩ := List.exists_mem_of_ne_nil _ hnil
      have := (mem_find_viable_prey CARD s card.level a).1 ha
      exact ⟨a, this.1, this.2⟩
    · rintro ⟨a, ha, hrest⟩
      have hm : a ∈ find_viable_prey CARD s card.level :=
        (mem_find_viable_prey CARD s card.level a).2 ⟨ha, hrest⟩
      cases hfv : find_viable_prey CARD s card.level with
      | nil => rw [hfv] at hm; cases hm
      | cons b bs => simp [hfv]
  refine ⟨?_, fun a => mem_find_viable_prey CARD s card.level a⟩
  by_cases hH : card.type = "Herbivore"
  · by_cases hcn : (card.level : Int) ≤ s.biome.cn
    · simp [can_play_animal, hH, hcn]
    · simp [can_play_animal, hH, hcn, GameState.add_log]
  · by_cases hC : card.type = "Carnivore"
    · rw [show (can_play_animal CARD s card).2 =
          !(find_viable_prey CARD s card.level).isEmpty from ?_]
      · simp only [hne]
        simp [hC, hH]
      · simp only [can_play_animal, hC, hH]
        rcases Bool.eq_false_or_eq_true (find_viable_prey CARD s card.level).isEmpty with
          he | he <;> simp [he, hH, hC]
    · by_cases hO : card.type = "Omnivore"
      · by_cases hcn : (card.level : Int) ≤ s.biome.cn
        · simp [can_play_animal, hO, hH, hC, hcn]
        · rw [show (can_play_animal CARD s card).2 =
              !(find_viable_prey CARD s card.level).isEmpty from ?_]
          · simp only [hne]
            simp [hO, hH, hC, hcn]
          · simp only [can_play_animal, hO, hH, hC]
            rcases Bool.eq_false_or_eq_true (find_viable_prey CARD s card.level).isEmpty with
              he | he <;> simp [he, hH, hC, hO, hcn]
      · simp [can_play_animal, hH, hC, hO, GameState.add_log]

/-- Witness for C3: with two level-3 herbivores on the table, the level-4
carnivore (prey threshold 2) is legal to play. -/
theorem can_play_animal_spec_witness :
    (can_play_animal CARDtest sC5 (CARDtest "c4")).2 = true := by
  refine (can_play_animal_spec CARDtest sC5 (CARDtest "c4")).1.2 ?_
  refine Or.inr (Or.inl ⟨by decide, ⟨1, "h3b", 0, 0⟩, by decide, by decide, by decide⟩)

/-! ## C9 -/

/-- C9: once `winner` is set the game is terminal: `end_turn` returns the
state unchanged (not even a log entry), and `play_card` reports failure and
changes no rules-relevant field — it only appends one log line, which the
spec declares purely observational. -/
theorem winner_terminal (CARD : String → Card) (s : GameState) (w : String)
    (choices : Nat → Option Nat) (card_id : String) (h : s.winner = some w) :
    end_turn CARD s choices = s ∧
    (play_card CARD s card_id).2 = false ∧
    SameCore (play_card CARD s card_id).1 s := by
  have hw : s.winner.isSome = true := by rw [h]; rfl
  refine ⟨?_, ?_, ?_⟩
  · simp [end_turn, hw]
  · simp [play_card, hw]
  · simp [play_card, hw, SameCore, GameState.add_log]

/-- Witness for C9 at a concrete finished state. -/
theorem winner_terminal_witness :
    end_turn CARDtest sWin (fun _ => none) = sWin ∧
    (play_card CARDtest sWin "p").2 = false ∧
    SameCore (play_card CARDtest sWin "p").1 sWin :=
  winner_terminal CARDtest sWin "Jugador 1" (fun _ => none) "p" rfl

/-! ## C1 -/

/-- C1 counterexample: with `pending_control` set and `check_control` now
false, `start_turn` declares no winner but does NOT clear the flag — the
claim's "their pendingControl flag is cleared by that startTurn call" is
false of the code (the flag is only recomputed later, at that player's
`end_turn`). -/
theorem start_turn_keeps_pending_counterexample :
    (start_turn CARDtest sC1).winner = none ∧
    check_control CARDtest sC1 0 = false ∧
    ((start_turn CARDtest sC1).players.getD 0 defaultPlayer).pending_control = true := by
  decide

/-- C1 (amended): if the active player's `pending_control` flag is set but
`check_control` no longer holds when `start_turn` runs, no winner is
declared (`winner` is unchanged) and the flag is left set — `start_turn`
does not modify it; it is recomputed only at that player's own `end_turn`. -/
theorem start_turn_failed_confirm (CARD : String → Card) (s : GameState)
    (hp : (s.players.getD s.active_player_index defaultPlayer).pending_control = true)
    (hc : check_control CARD s s.active_player_index = false) :
    (start_turn CARD s).winner = s.winner ∧
    (start_turn CARD s).active_player_index = s.active_player_index ∧
    ((start_turn CARD s).players.getD s.active_player_index defaultPlayer).pending_control
      = true := by
  have hlt : s.active_player_index < s.players.length := by
    by_contra hge
    have : s.players.getD s.active_player_index defaultPlayer = defaultPlayer := by
      simp [List.getD_eq_getElem?_getD, List.getElem?_eq_none (Nat.le_of_not_lt hge)]
    rw [this] at hp
    exact absurd hp (by decide)
  have hcond : ((s.players.getD s.active_player_index defaultPlayer).pending_control &&
      check_control CARD s s.active_player_index) = false := by
    rw [hp, hc]; rfl
  simp only [start_turn]
  split
  · rename_i htrue
    rw [hcond] at htrue
    exact absurd htrue (by decide)
  · refine ⟨by simp [draw_to_hand, GameState.add_log], by simp [draw_to_hand, GameState.add_log], ?_⟩
    simp only [draw_to_hand, GameState.add_log]
    rw [getD_set_self _ _ _ _ (by simpa using hlt)]
    exact hp

/-- Witness for the amended C1 at a concrete state with a partial board. -/
theorem start_turn_failed_confirm_witness :
    (start_turn CARDtest sC1w).winner = none ∧
    (start_turn CARDtest sC1w).active_player_index = 0 ∧
    ((start_turn CARDtest sC1w).players.getD 0 defaultPlayer).pending_control = true :=
  start_turn_failed_confirm CARDtest sC1w (by decide) (by decide)

/-! ## C4 -/

/-- Combat core: success iff `defenseScore ≤ attackScore`; on success the
prey is removed, `cc` rises by the prey's level, and the predator (if on
the table and not itself the prey) gets the new hunger; on failure nothing
but the log changes. -/
theorem hunt_combat_spec (CARD : String → Card) (s : GameState)
    (predator prey : AnimalInstance) :
    ((hunt_combat CARD s predator prey).2 = true ↔
      defense_score (CARD prey.card_id) ≤ attack_score (CARD predator.card_id)) ∧
    (defense_score (CARD prey.card_id) ≤ attack_score (CARD predator.card_id) →
      (hunt_combat CARD s predator prey).1.biome.cc
          = s.biome.cc + (CARD prey.card_id).level ∧
      (∀ a ∈ (hunt_combat CARD s predator prey).1.animals,
        a.instance_id ≠ prey.instance_id) ∧
      (predator ∈ s.animals → predator.instance_id ≠ prey.instance_id →
        { predator with hunger :=
            if (CARD prey.card_id).level = (CARD predator.card_id).level then 0
            else predator.hunger - 1 } ∈ (hunt_combat CARD s predator prey).1.animals) ∧
      (hunt_combat CARD s predator prey).1.biome.cn = s.biome.cn ∧
      (hunt_combat CARD s predator prey).1.players = s.players ∧
      (hunt_combat CARD s predator prey).1.actions_used = s.actions_used ∧
      (hunt_combat CARD s predator prey).1.winner = s.winner) ∧
    (¬(defense_score (CARD prey.card_id) ≤ attack_score (CARD predator.card_id)) →
      SameCore (hunt_combat CARD s predator prey).1 s) := by
  simp only [hunt_combat]
  split
  · rename_i hwin
    refine ⟨by simp [hwin], fun _ => ?_, fun hlose => absurd hwin hlose⟩
    refine ⟨rfl, ?_, ?_, rfl, rfl, rfl, rfl⟩
    · intro a ha
      simp only [GameState.add_log, List.mem_map, List.mem_filter] at ha
      obtain ⟨b, ⟨_, hbne⟩, hfb⟩ := ha
      have hid : a.instance_id = b.instance_id := by
        rw [← hfb]
        by_cases hb : (b.instance_id == predator.instance_id) = true <;> simp [hb]
      rw [hid]
      simpa [bne_iff_ne] using hbne
    · intro hmem hne
      simp only [GameState.add_log, List.mem_map, List.mem_filter]
      refine ⟨predator, ⟨hmem, by simpa [bne_iff_ne] using hne⟩, ?_⟩
      simp only [beq_self_eq_true, if_pos]
      by_cases hl : (CARD prey.card_id).level = (CARD predator.card_id).level
      · simp [hl]
      · simp [hl, beq_iff_eq]
  · rename_i hlose
    rw [Nat.not_le] at hlose
    refine ⟨by simp [Nat.not_le.mpr hlose], fun hwin => absurd hwin (Nat.not_le.mpr hlose),
      fun _ => ?_⟩
    exact ⟨rfl, rfl, rfl, rfl, rfl, rfl, rfl, rfl⟩

/-- C4: a hunt that is not evaded (the predator has at least the prey's
instinct, or at least its mobility) succeeds iff
`attackScore ≥ defenseScore` with
`weightScaled = min(100, ⌊weightKg/10⌋)`,
`attackScore = attack + ⌊0.20·weightScaled⌋` and
`defenseScore = defense + ⌊0.25·weightScaled⌋`; on success the prey is
removed, `cc` rises by the prey's level, and the predator's hunger becomes
0 on an equal-level kill and otherwise drops by 1 (floored at 0); on
failure only the log changes. -/
theorem resolve_single_hunt_spec (CARD : String → Card) (s : GameState)
    (predator prey : AnimalInstance)
    (hev : (CARD prey.card_id).instinct ≤ (CARD predator.card_id).instinct ∨
        (CARD prey.card_id).mobility ≤ (CARD predator.card_id).mobility) :
    ((resolve_single_hunt CARD s predator prey).2 = true ↔
      defense_score (CARD prey.card_id) ≤ attack_score (CARD predator.card_id)) ∧
    (defense_score (CARD prey.card_id) ≤ attack_score (CARD predator.card_id) →
      (resolve_single_hunt CARD s predator prey).1.biome.cc
          = s.biome.cc + (CARD prey.card_id).level ∧
      (∀ a ∈ (resolve_single_hunt CARD s predator prey).1.animals,
        a.instance_id ≠ prey.instance_id) ∧
      (predator ∈ s.animals → predator.instance_id ≠ prey.instance_id →
        { predator with hunger :=
            if (CARD prey.card_id).level = (CARD predator.card_id).level then 0
            else predator.hunger - 1 }
          ∈ (resolve_single_hunt CARD s predator prey).1.animals) ∧
      (resolve_single_hunt CARD s predator prey).1.biome.cn = s.biome.cn ∧
      (resolve_single_hunt CARD s predator prey).1.players = s.players ∧
      (resolve_single_hunt CARD s predator prey).1.actions_used = s.actions_used ∧
      (resolve_single_hunt CARD s predator prey).1.winner = s.winner) ∧
    (¬(defense_score (CARD prey.card_id) ≤ attack_score (CARD predator.card_id)) →
      SameCore (resolve_single_hunt CARD s predator prey).1 s) := by
  simp only [resolve_single_hunt]
  split
  · exact hunt_combat_spec CARD _ predator prey
  · rename_i hins
    split
    · rename_i hmob
      exfalso
      rcases hev with h | h
      · exact hins (by simpa using h)
      · exact absurd hmob (Nat.not_lt.mpr h)
    · exact hunt_combat_spec CARD _ predator prey

/-- Witness for C4: scenario B — attack 50 / 800 kg against defense 40 /
300 kg gives scores 66 against 47; the hunt succeeds and `cc` rises by the
prey's level 4. -/
theorem resolve_single_hunt_spec_witness :
    attack_score (CARDtest "c4") = 66 ∧
    defense_score (CARDtest "hB") = 47 ∧
    (resolve_single_hunt CARDtest sB ⟨1, "c4", 0, 1⟩ ⟨2, "hB", 1, 0⟩).2 = true ∧
    (resolve_single_hunt CARDtest sB ⟨1, "c4", 0, 1⟩ ⟨2, "hB", 1, 0⟩).1.biome.cc
      = sB.biome.cc + 4 := by
  have h := resolve_single_hunt_spec CARDtest sB ⟨1, "c4", 0, 1⟩ ⟨2, "hB", 1, 0⟩
    (Or.inl (by decide))
  exact ⟨by decide, by decide, h.1.2 (by decide), (h.2.1 (by decide)).1⟩

/-! ## C10 -/

/-- C10: the Hunting Resolver snapshots its candidate list before any hunt
resolves.  In `s10` with choices `ch10`, animal 2 (a hungry omnivore and
thus a hunting candidate) is first eaten by predator 1, yet afterwards
still resolves its own chosen hunt: it removes prey 3 from the table,
raises `cc` by prey 3's level on top of its own (2 + 3 = 5), and is
recorded as fed by hunting — despite no longer being a live instance. -/
theorem hunting_snapshot_stale_predator :
    is_hunting_candidate CARDtest ⟨2, "oB", 1, 1⟩ = true ∧
    (resolve_hunting CARDtest s10 ch10).1.animals = [⟨1, "oA", 0, 0⟩] ∧
    (resolve_hunting CARDtest s10 ch10).1.biome.cc = 5 ∧
    (resolve_hunting CARDtest s10 ch10).2 = [1, 2] := by
  decide

/-! ## C5 -/

/-- Inserting into a weight-descending list adds one element. -/
theorem length_weight_insert (CARD : String → Card) (x : AnimalInstance) :
    ∀ l : List AnimalInstance, (weight_insert CARD x l).length = l.length + 1 := by
  intro l
  induction l with
  | nil => rfl
  | cons y ys ih =>
    simp only [weight_insert]
    split
    · rfl
    · simp [ih]

/-- The stable descending sort preserves length. -/
theorem length_sort_by_weight_desc (CARD : String → Card) :
    ∀ l : List AnimalInstance, (sort_by_weight_desc CARD l).length = l.length := by
  intro l
  induction l with
  | nil => rfl
  | cons x xs ih => simp [sort_by_weight_desc, length_weight_insert, ih]

/-- The head of the stable descending sort is the first-encountered element
of maximal weight: it occurs in the list with only strictly lighter
elements before it, and no element is heavier. -/
theorem sort_head_first_max (CARD : String → Card) :
    ∀ l : List AnimalInstance, l ≠ [] →
      ∃ w rest, sort_by_weight_desc CARD l = w :: rest ∧
        (∃ pre post, l = pre ++ w :: post ∧
          ∀ b ∈ pre, (CARD b.card_id).weightKg < (CARD w.card_id).weightKg) ∧
        (∀ b ∈ l, (CARD b.card_id).weightKg ≤ (CARD w.card_id).weightKg) := by
  intro l
  induction l with
  | nil => intro h; exact absurd rfl h
  | cons x xs ih =>
    intro _
    cases xs with
    | nil =>
      exact ⟨x, [], rfl, ⟨[], [], rfl, by simp⟩, by simp⟩
    | cons y ys =>
      obtain ⟨w', rest', hs', ⟨pre', post', hdec', hlt'⟩, hmax'⟩ := ih (by simp)
      have hstep : sort_by_weight_desc CARD (x :: y :: ys)
          = weight_insert CARD x (sort_by_weight_desc CARD (y :: ys)) := rfl
      rw [hstep, hs']
      simp only [weight_insert]
      by_cases hc : (CARD w'.card_id).weightKg ≤ (CARD x.card_id).weightKg
      · rw [if_pos hc]
        refine ⟨x, w' :: rest', rfl, ⟨[], y :: ys, rfl, by simp⟩, ?_⟩
        intro b hb
        rcases List.mem_cons.mp hb with hb | hb
        · rw [hb]
        · exact le_trans (hmax' b hb) hc
      · rw [if_neg hc]
        have hxw : (CARD x.card_id).weightKg < (CARD w'.card_id).weightKg :=
          Nat.lt_of_not_le hc
        refine ⟨w', weight_insert CARD x rest', rfl,
          ⟨x :: pre', post', by simp [hdec'], ?_⟩, ?_⟩
        · intro b hb
          rcases List.mem_cons.mp hb with hb | hb
          · rw [hb]; exact hxw
          · exact hlt' b hb
        · intro b hb
          rcases List.mem_cons.mp hb with hb | hb
          · rw [hb]; exact Nat.le_of_lt hxw
          · exact hmax' b hb

/-- C5: the Feeding Resolver's level loop is the ascending fold of
`feed_level` over levels `1..lmax` (the trailing carnivore pass never
touches `cn`), and one `feed_level` step on a populated level behaves as
specified: full feed when `cn ≥ L·count`; otherwise a single duel when at
least two instances exist and `cn ≥ L`, won by the first-encountered
heaviest instance (hunger 0, `cn` drops by `L`, every other instance at
the level gains 1 hunger); otherwise every instance gains 1 hunger with
`cn` unchanged. -/
theorem feed_level_spec (CARD : String → Card) (level : Nat) (s : GameState)
    (fed : List Nat) :
    ((resolve_feeding CARD s fed).biome.cn = ((List.range' 1 s.biome.lmax).foldl
        (fun t L => feed_level CARD L t) (s.add_log "Fase de alimentacion de CN.")).biome.cn) ∧
    (level_members CARD s.animals level ≠ [] →
      (((level * (level_members CARD s.animals level).length : Nat) : Int) ≤ s.biome.cn →
        (feed_level CARD level s).biome.cn
            = s.biome.cn - ((level * (level_members CARD s.animals level).length : Nat) : Int) ∧
        (feed_level CARD level s).animals = s.animals.map (fun a =>
          if herb_omni_at CARD level a then { a with hunger := 0 } else a)) ∧
      (¬(((level * (level_members CARD s.animals level).length : Nat) : Int) ≤ s.biome.cn) →
        2 ≤ (level_members CARD s.animals level).length → ((level : Nat) : Int) ≤ s.biome.cn →
        ∀ w, (sort_by_weight_desc CARD (level_members CARD s.animals level)).head? = some w →
          (∃ pre post, level_members CARD s.animals level = pre ++ w :: post ∧
            ∀ b ∈ pre, (CARD b.card_id).weightKg < (CARD w.card_id).weightKg) ∧
          (∀ b ∈ level_members CARD s.animals level,
            (CARD b.card_id).weightKg ≤ (CARD w.card_id).weightKg) ∧
          (feed_level CARD level s).biome.cn = s.biome.cn - ((level : Nat) : Int) ∧
          (feed_level CARD level s).animals = s.animals.map (fun a =>
            if herb_omni_at CARD level a then
              (if a.instance_id = w.instance_id then { a with hunger := 0 }
               else { a with hunger := a.hunger + 1 })
            else a)) ∧
      (¬(((level * (level_members CARD s.animals level).length : Nat) : Int) ≤ s.biome.cn) →
        ¬(2 ≤ (level_members CARD s.animals level).length ∧
            ((level : Nat) : Int) ≤ s.biome.cn) →
        (feed_level CARD level s).biome.cn = s.biome.cn ∧
        (feed_level CARD level s).animals = s.animals.map (fun a =>
          if herb_omni_at CARD level a then { a with hunger := a.hunger + 1 } else a))) := by
  constructor
  · simp only [resolve_feeding]
    split
    · rfl
    · rfl
  intro hne
  have hie : (level_members CARD s.animals level).isEmpty = false := by
    rcases Bool.eq_false_or_eq_true (level_members CARD s.animals level).isEmpty with h | h
    · exact absurd (List.isEmpty_iff.mp h) hne
    · exact h
  refine ⟨?_, ?_, ?_⟩
  · intro hcn
    simp only [feed_level, hie, Bool.false_eq_true, if_false]
    rw [if_pos hcn]
    exact ⟨rfl, rfl⟩
  · intro hcn1 hlen hcn2 w hw
    obtain ⟨w', rest, hs', hfirst, hmax⟩ :=
      sort_head_first_max CARD (level_members CARD s.animals level) hne
    have hww : w = w' := by
      rw [hs'] at hw
      simpa using hw.symm
    subst hww
    have hrl : rest.length + 1 = (level_members CARD s.animals level).length := by
      have := length_sort_by_weight_desc CARD (level_members CARD s.animals level)
      rw [hs'] at this
      simpa using this
    cases rest with
    | nil =>
      exfalso
      have h1 : (level_members CARD s.animals level).length = 1 := by simpa using hrl.symm
      omega
    | cons l2 rest2 =>
      simp only [feed_level, hie, Bool.false_eq_true, if_false]
      rw [if_neg hcn1]
      have hlen2 : 2 ≤ (sort_by_weight_desc CARD (level_members CARD s.animals level)).length := by
        rw [length_sort_by_weight_desc]
        exact hlen
      rw [if_pos (show
        2 ≤ (sort_by_weight_desc CARD (level_members CARD s.animals level)).length ∧
        ((level : Nat) : Int) ≤ (s.add_log "CN insuficiente en este nivel.").biome.cn
        from ⟨hlen2, hcn2⟩)]
      refine ⟨hfirst, hmax, rfl, ?_⟩
      refine List.map_congr_left ?_
      intro a _
      rw [hs']
      simp only [List.getD_cons_zero, List.getD_cons_succ]
      by_cases hm : herb_omni_at CARD level a = true
      · rw [if_pos hm, if_pos hm]
        by_cases h1 : a.instance_id = w.instance_id
        · rw [if_pos h1, if_pos (beq_iff_eq.mpr h1)]
        · rw [if_neg h1, if_neg (by simpa using h1)]
          by_cases h2 : (a.instance_id == l2.instance_id) = true
          · rw [if_pos h2]
          · rw [if_neg h2]
      · rw [if_neg hm, if_neg hm]
  · intro hcn1 hno
    simp only [feed_level, hie, Bool.false_eq_true, if_false]
    rw [if_neg hcn1]
    have hno' : ¬(2 ≤ (sort_by_weight_desc CARD (level_members CARD s.animals level)).length ∧
        ((level : Nat) : Int) ≤ (s.add_log "CN insuficiente en este nivel.").biome.cn) := by
      intro hh
      refine hno ⟨?_, hh.2⟩
      have := hh.1
      rwa [length_sort_by_weight_desc] at this
    rw [if_neg hno']
    exact ⟨rfl, rfl⟩

/-- Witness for C5: scenario C — two level-3 herbivores (500 kg vs 300 kg)
with `cn = 3`: a duel; the heavier (instance 2) keeps hunger 0, the other
gains 1 hunger, and `cn` drops to 0. -/
theorem feed_level_spec_witness :
    (feed_level CARDtest 3 sC5).biome.cn = 0 ∧
    (feed_level CARDtest 3 sC5).animals = [⟨1, "h3b", 0, 1⟩, ⟨2, "h3", 1, 0⟩] := by
  have h := ((feed_level_spec CARDtest 3 sC5 []).2 (by decide)).2.1 (by decide) (by decide)
    (by decide) ⟨2, "h3", 1, 0⟩ (by decide)
  refine ⟨?_, ?_⟩
  · rw [h.2.2.1]; decide
  · rw [h.2.2.2]; decide

/-! ## C6 -/

/-- Feeding-group membership implies the card is not strictly Carnivore. -/
theorem herb_omni_not_carnivore (CARD : String → Card) (level : Nat) (a : AnimalInstance)
    (h : herb_omni_at CARD level a = true) :
    (!((CARD a.card_id).type == "Carnivore")) = true := by
  have h1 := Bool.and_elim_left h
  rcases (Bool.or_eq_true _ _).mp h1 with h2 | h2
  · rw [beq_iff_eq] at h2
    rw [h2]
    decide
  · rw [beq_iff_eq] at h2
    rw [h2]
    decide

/-- Removing strictly-Carnivore instances does not change any feeding
level group. -/
theorem level_members_filter_carnivore (CARD : String → Card) (level : Nat)
    (l : List AnimalInstance) :
    level_members CARD (l.filter (fun a => !((CARD a.card_id).type == "Carnivore"))) level
      = level_members CARD l level := by
  simp only [level_members, List.filter_filter]
  refine List.filter_congr ?_
  intro a _
  by_cases hm : herb_omni_at CARD level a = true
  · rw [hm, herb_omni_not_carnivore CARD level a hm]
    rfl
  · have hm' : herb_omni_at CARD level a = false := Bool.eq_false_iff.mpr hm
    rw [hm']
    rfl

/-- A per-animal update that keeps `card_id` commutes with dropping
strictly-Carnivore instances. -/
theorem filter_carnivore_map (CARD : String → Card) (f : AnimalInstance → AnimalInstance)
    (hf : ∀ a, (f a).card_id = a.card_id) (l : List AnimalInstance) :
    (l.filter (fun a => !((CARD a.card_id).type == "Carnivore"))).map f
      = (l.map f).filter (fun a => !((CARD a.card_id).type == "Carnivore")) := by
  rw [List.filter_map]
  congr 1
  refine (List.filter_congr ?_).symm
  intro a _
  simp only [Function.comp_apply, hf a]

/-- The feeding updates keep `card_id`. -/
theorem feed_update_card_id (CARD : String → Card) (level : Nat)
    (g : AnimalInstance → AnimalInstance) (hg : ∀ a, (g a).card_id = a.card_id)
    (a : AnimalInstance) :
    ((if herb_omni_at CARD level a then g a else a)).card_id = a.card_id := by
  by_cases hm : herb_omni_at CARD level a = true
  · rw [if_pos hm]
    exact hg a
  · rw [if_neg hm]

/-- One feeding level step is insensitive to strictly-Carnivore instances:
it produces the same biome, and its animal list is the carnivore-free
filtering of the unrestricted run. -/
theorem feed_level_filter (CARD : String → Card) (level : Nat) (s t : GameState)
    (hb : t.biome = s.biome)
    (ha : t.animals = s.animals.filter (fun a => !((CARD a.card_id).type == "Carnivore"))) :
    (feed_level CARD level t).biome = (feed_level CARD level s).biome ∧
    (feed_level CARD level t).animals
      = (feed_level CARD level s).animals.filter
          (fun a => !((CARD a.card_id).type == "Carnivore")) := by
  have hla : level_members CARD t.animals level = level_members CARD s.animals level := by
    rw [ha, level_members_filter_carnivore]
  simp only [feed_level, add_log_biome, add_log_animals]
  rw [hla, hb, ha]
  by_cases c1 : (level_members CARD s.animals level).isEmpty = true
  · rw [if_pos c1, if_pos c1]
    exact ⟨hb, ha⟩
  · rw [if_neg c1, if_neg c1]
    by_cases c2 : ((level * (level_members CARD s.animals level).length : Nat) : Int)
        ≤ s.biome.cn
    · rw [if_pos c2, if_pos c2]
      refine ⟨rfl, ?_⟩
      change List.map _ (List.filter _ s.animals) = List.filter _ (List.map _ s.animals)
      exact filter_carnivore_map CARD _
        (feed_update_card_id CARD level (fun a => { a with hunger := 0 }) (fun a => rfl))
        s.animals
    · rw [if_neg c2, if_neg c2]
      by_cases c3 : 2 ≤ (sort_by_weight_desc CARD (level_members CARD s.animals level)).length ∧
          ((level : Nat) : Int) ≤ s.biome.cn
      · rw [if_pos c3, if_pos c3]
        refine ⟨rfl, ?_⟩
        change List.map _ (List.filter _ s.animals) = List.filter _ (List.map _ s.animals)
        refine filter_carnivore_map CARD _ (feed_update_card_id CARD level _ ?_) s.animals
        intro a
        dsimp only
        split
        · rfl
        · split
          · rfl
          · rfl
      · rw [if_neg c3, if_neg c3]
        refine ⟨rfl, ?_⟩
        change List.map _ (List.filter _ s.animals) = List.filter _ (List.map _ s.animals)
        exact filter_carnivore_map CARD _
          (feed_update_card_id CARD level (fun a => { a with hunger := a.hunger + 1 })
            (fun a => rfl))
          s.animals

/-- The whole feeding level loop is insensitive to strictly-Carnivore
instances. -/
theorem feed_fold_filter (CARD : String → Card) (levels : List Nat) :
    ∀ s t : GameState, t.biome = s.biome →
      t.animals = s.animals.filter (fun a => !((CARD a.card_id).type == "Carnivore")) →
      (levels.foldl (fun u L => feed_level CARD L u) t).biome
          = (levels.foldl (fun u L => feed_level CARD L u) s).biome ∧
      (levels.foldl (fun u L => feed_level CARD L u) t).animals
          = (levels.foldl (fun u L => feed_level CARD L u) s).animals.filter
              (fun a => !((CARD a.card_id).type == "Carnivore")) := by
  induction levels with
  | nil => exact fun s t hb ha => ⟨hb, ha⟩
  | cons L rest ih =>
    intro s t hb ha
    have h := feed_level_filter CARD L s t hb ha
    exact ih (feed_level CARD L s) (feed_level CARD L t) h.1 h.2

/-- A strictly-Carnivore animal passes through one feeding level step
untouched. -/
theorem feed_level_mem_carnivore (CARD : String → Card) (level : Nat) (s : GameState)
    (a : AnimalInstance) (ht : (CARD a.card_id).type = "Carnivore")
    (hmem : a ∈ s.animals) :
    a ∈ (feed_level CARD level s).animals := by
  have hm : herb_omni_at CARD level a = false := by
    have e1 : (("Carnivore" : String) == "Herbivore") = false := by decide
    have e2 : (("Carnivore" : String) == "Omnivore") = false := by decide
    simp [herb_omni_at, ht, e1, e2]
  simp only [feed_level, add_log_animals]
  split
  · exact hmem
  · split
    · exact List.mem_map.mpr ⟨a, hmem, by rw [if_neg (by simp [hm])]⟩
    · split
      · exact List.mem_map.mpr ⟨a, hmem, by rw [if_neg (by simp [hm])]⟩
      · exact List.mem_map.mpr ⟨a, hmem, by rw [if_neg (by simp [hm])]⟩

/-- A strictly-Carnivore animal passes through the whole level loop
untouched. -/
theorem feed_fold_mem_carnivore (CARD : String → Card) (levels : List Nat)
    (a : AnimalInstance) (ht : (CARD a.card_id).type = "Carnivore") :
    ∀ s : GameState, a ∈ s.animals →
      a ∈ (levels.foldl (fun u L => feed_level CARD L u) s).animals := by
  induction levels with
  | nil => exact fun s h => h
  | cons L rest ih =>
    intro s hmem
    exact ih (feed_level CARD L s) (feed_level_mem_carnivore CARD L s a ht hmem)

/-- C6: strictly-Carnivore instances feed only by hunting.  The hunting
candidates are exactly the live Carnivore/Omnivore instances with
`hunger ≥ 1`; the Feeding Resolver's `cn` is unchanged when every
strictly-Carnivore instance is removed first (carnivores never consume the
pool); and after the level loop every live strictly-Carnivore instance not
recorded as fed by hunting gains exactly 1 hunger. -/
theorem carnivores_feed_only_by_hunting (CARD : String → Card) (s : GameState)
    (fed : List Nat) :
    (∀ a : AnimalInstance, a ∈ s.animals.filter (is_hunting_candidate CARD) ↔
      a ∈ s.animals ∧
      ((CARD a.card_id).type = "Carnivore" ∨ (CARD a.card_id).type = "Omnivore") ∧
      1 ≤ a.hunger) ∧
    ((resolve_feeding CARD s fed).biome.cn =
      (resolve_feeding CARD
        { s with animals :=
            s.animals.filter (fun a => !((CARD a.card_id).type == "Carnivore")) }
        fed).biome.cn) ∧
    (∀ a ∈ s.animals, (CARD a.card_id).type = "Carnivore" →
      { a with hunger := if fed.contains a.instance_id then a.hunger else a.hunger + 1 }
        ∈ (resolve_feeding CARD s fed).animals) := by
  refine ⟨?_, ?_, ?_⟩
  · intro a
    simp [is_hunting_candidate, List.mem_filter, Bool.and_eq_true, Bool.or_eq_true,
      beq_iff_eq, decide_eq_true_eq, and_assoc]
  · have hrel := feed_fold_filter CARD (List.range' 1 s.biome.lmax)
      (s.add_log "Fase de alimentacion de CN.")
      (({ s with animals :=
          s.animals.filter (fun a => !((CARD a.card_id).type == "Carnivore")) }).add_log
        "Fase de alimentacion de CN.") rfl rfl
    rw [resolve_feeding_biome, resolve_feeding_biome]
    simp only [set_animals_biome]
    rw [hrel.1]
  · intro a hmem ht
    have hloop := feed_fold_mem_carnivore CARD (List.range' 1 s.biome.lmax) a ht
      (s.add_log "Fase de alimentacion de CN.") hmem
    have hcarn : ((CARD a.card_id).type == "Carnivore") = true := beq_iff_eq.mpr ht
    simp only [resolve_feeding, add_log_biome, add_log_animals]
    split
    · rename_i hemp
      have hnil := List.isEmpty_iff.mp hemp
      have hfed : fed.contains a.instance_id = true := by
        rcases Bool.eq_false_or_eq_true (fed.contains a.instance_id) with hc | hc
        · exact hc
        · exfalso
          have hu : is_unfed_carnivore CARD fed a = true := by
            simp only [is_unfed_carnivore]
            rw [hcarn, hc]
            rfl
          have hin : a ∈ List.filter (is_unfed_carnivore CARD fed)
              ((List.range' 1 s.biome.lmax).foldl (fun u L => feed_level CARD L u)
                (s.add_log "Fase de alimentacion de CN.")).animals :=
            List.mem_filter.mpr ⟨hloop, hu⟩
          rw [hnil] at hin
          cases hin
      rw [if_pos hfed]
      exact hloop
    · refine List.mem_map.mpr ⟨a, hloop, ?_⟩
      by_cases hc : fed.contains a.instance_id = true
      · rw [if_pos hc]
        have hu : is_unfed_carnivore CARD fed a = false := by
          simp only [is_unfed_carnivore]
          rw [hcarn, hc]
          rfl
        rw [if_neg (by simp [hu])]
      · have hc' : fed.contains a.instance_id = false := Bool.eq_false_iff.mpr hc
        rw [if_neg hc]
        have hu : is_unfed_carnivore CARD fed a = true := by
          simp only [is_unfed_carnivore]
          rw [hcarn, hc']
          rfl
        rw [if_pos hu]

/-- Witness for C6: a lone hungry carnivore is a hunting candidate, and
unfed it gains exactly one hunger in the feeding phase while `cn` is
untouched. -/
theorem carnivores_feed_only_by_hunting_witness :
    (⟨1, "c4", 0, 2⟩ : AnimalInstance) ∈ (resolve_feeding CARDtest sC6 []).animals ∧
    (resolve_feeding CARDtest sC6 []).biome.cn =
      (resolve_feeding CARDtest
        { sC6 with animals :=
            sC6.animals.filter (fun a => !((CARDtest a.card_id).type == "Carnivore")) }
        []).biome.cn := by
  have h := carnivores_feed_only_by_hunting CARDtest sC6 []
  exact ⟨h.2.2 ⟨1, "c4", 0, 1⟩ (by decide) (by decide), h.2.1⟩

/-! ## Preservation lemmas for the reachability invariants (C7, C8) -/

/-- `can_play_animal` at most logs; every rules-relevant field is kept. -/
theorem can_play_animal_core (CARD : String → Card) (s : GameState) (card : Card) :
    SameCore (can_play_animal CARD s card).1 s := by
  simp only [can_play_animal]
  split
  · split <;> exact ⟨rfl, rfl, rfl, rfl, rfl, rfl, rfl, rfl⟩
  · split
    · split <;> exact ⟨rfl, rfl, rfl, rfl, rfl, rfl, rfl, rfl⟩
    · split
      · split <;> exact ⟨rfl, rfl, rfl, rfl, rfl, rfl, rfl, rfl⟩
      · exact ⟨rfl, rfl, rfl, rfl, rfl, rfl, rfl, rfl⟩

/-- A single hunt never touches `cn` or the action budget. -/
theorem resolve_single_hunt_pres (CARD : String → Card) (s : GameState)
    (predator prey : AnimalInstance) :
    (resolve_single_hunt CARD s predator prey).1.biome.cn = s.biome.cn ∧
    (resolve_single_hunt CARD s predator prey).1.actions_used = s.actions_used := by
  simp only [resolve_single_hunt, hunt_combat]
  split
  · split <;> exact ⟨rfl, rfl⟩
  · split
    · exact ⟨rfl, rfl⟩
    · split <;> exact ⟨rfl, rfl⟩

/-- The hunting loop never touches `cn` or the action budget. -/
theorem hunt_loop_pres (CARD : String → Card) (choices : Nat → Option Nat) :
    ∀ (preds : List AnimalInstance) (s : GameState) (fed : List Nat),
      (hunt_loop CARD choices preds s fed).1.biome.cn = s.biome.cn ∧
      (hunt_loop CARD choices preds s fed).1.actions_used = s.actions_used := by
  intro preds
  induction preds with
  | nil => exact fun s fed => ⟨rfl, rfl⟩
  | cons p rest ih =>
    intro s fed
    simp only [hunt_loop]
    cases choices p.instance_id with
    | none => exact ih _ fed
    | some prey_id =>
      dsimp only
      by_cases h0 : (prey_id == 0) = true
      · rw [if_pos h0]
        exact ih _ fed
      · rw [if_neg h0]
        cases hf : s.animals.find? (fun a => a.instance_id == prey_id) with
        | none => exact ih _ fed
        | some prey =>
          dsimp only
          by_cases hv : is_viable_prey CARD (CARD p.card_id).level prey = true
          · rw [if_pos hv]
            have h2 := resolve_single_hunt_pres CARD s p prey
            by_cases hr : (resolve_single_hunt CARD s p prey).2 = true
            · rw [if_pos hr]
              have h1 := ih (resolve_single_hunt CARD s p prey).1 (fed ++ [p.instance_id])
              exact ⟨h1.1.trans h2.1, h1.2.trans h2.2⟩
            · rw [if_neg hr]
              have h1 := ih (resolve_single_hunt CARD s p prey).1 fed
              exact ⟨h1.1.trans h2.1, h1.2.trans h2.2⟩
          · rw [if_neg hv]
            exact ih _ fed

/-- The Hunting Resolver never touches `cn` or the action budget. -/
theorem resolve_hunting_pres (CARD : String → Card) (s : GameState)
    (choices : Nat → Option Nat) :
    (resolve_hunting CARD s choices).1.biome.cn = s.biome.cn ∧
    (resolve_hunting CARD s choices).1.actions_used = s.actions_used := by
  simp only [resolve_hunting]
  split
  · exact ⟨rfl, rfl⟩
  · exact hunt_loop_pres CARD choices _ _ []

/-- One feeding level step keeps the action budget and cannot drive `cn`
negative (every subtraction is guarded). -/
theorem feed_level_pres (CARD : String → Card) (level : Nat) (s : GameState) :
    (feed_level CARD level s).actions_used = s.actions_used ∧
    (0 ≤ s.biome.cn → 0 ≤ (feed_level CARD level s).biome.cn) := by
  simp only [feed_level, add_log_biome]
  split
  · exact ⟨rfl, fun h => h⟩
  · split
    · rename_i hc
      refine ⟨rfl, fun h => ?_⟩
      show (0 : Int) ≤ s.biome.cn - ((level * (level_members CARD s.animals level).length : Nat) : Int)
      omega
    · split
      · rename_i hc3
        refine ⟨rfl, fun h => ?_⟩
        have := hc3.2
        show (0 : Int) ≤ s.biome.cn - ((level : Nat) : Int)
        omega
      · exact ⟨rfl, fun h => h⟩

/-- The feeding level loop keeps the action budget and `cn ≥ 0`. -/
theorem feed_fold_pres (CARD : String → Card) (levels : List Nat) :
    ∀ s : GameState,
      (levels.foldl (fun t L => feed_level CARD L t) s).actions_used = s.actions_used ∧
      (0 ≤ s.biome.cn →
        0 ≤ (levels.foldl (fun t L => feed_level CARD L t) s).biome.cn) := by
  induction levels with
  | nil => exact fun s => ⟨rfl, fun h => h⟩
  | cons L rest ih =>
    intro s
    have h1 := feed_level_pres CARD L s
    have h2 := ih (feed_level CARD L s)
    exact ⟨h2.1.trans h1.1, fun h => h2.2 (h1.2 h)⟩

/-- The Feeding Resolver keeps the action budget and `cn ≥ 0`. -/
theorem resolve_feeding_pres (CARD : String → Card) (s : GameState) (fed : List Nat) :
    (resolve_feeding CARD s fed).actions_used = s.actions_used ∧
    (0 ≤ s.biome.cn → 0 ≤ (resolve_feeding CARD s fed).biome.cn) := by
  have h := feed_fold_pres CARD (List.range' 1 s.biome.lmax)
    (s.add_log "Fase de alimentacion de CN.")
  simp only [resolve_feeding, add_log_biome, add_log_animals]
  split
  · exact h
  · exact h

/-- The Starvation Resolver never touches `cn` or the action budget. -/
theorem resolve_starvation_pres (CARD : String → Card) (s : GameState) :
    (resolve_starvation CARD s).biome.cn = s.biome.cn ∧
    (resolve_starvation CARD s).actions_used = s.actions_used := by
  simp only [resolve_starvation]
  split
  · exact ⟨rfl, rfl⟩
  · exact ⟨rfl, rfl⟩

/-- The Conversion Resolver never touches `cn` or the action budget. -/
theorem resolve_conversion_pres (s : GameState) :
    (resolve_conversion s).biome.cn = s.biome.cn ∧
    (resolve_conversion s).actions_used = s.actions_used :=
  ⟨rfl, rfl⟩

/-- `start_turn` either resets the action budget or (in the winner branch)
leaves it alone, and keeps `cn ≥ 0`. -/
theorem start_turn_pres (CARD : String → Card) (s : GameState) :
    ((start_turn CARD s).actions_used = 0 ∨
      (start_turn CARD s).actions_used = s.actions_used) ∧
    (0 ≤ s.biome.cn → 0 ≤ (start_turn CARD s).biome.cn) := by
  simp only [start_turn]
  split
  · exact ⟨Or.inr rfl, fun h => h⟩
  · constructor
    · left
      rfl
    · intro _
      exact Int.natCast_nonneg _

/-- `play_card` keeps `cn`, and raises the action budget by one only after
checking it is below 3. -/
theorem play_card_pres (CARD : String → Card) (s : GameState) (c : String) :
    (play_card CARD s c).1.biome.cn = s.biome.cn ∧
    ((play_card CARD s c).1.actions_used = s.actions_used ∨
      (s.actions_used < 3 ∧ (play_card CARD s c).1.actions_used = s.actions_used + 1)) := by
  simp only [play_card]
  split
  · exact ⟨rfl, Or.inl rfl⟩
  · split
    · exact ⟨rfl, Or.inl rfl⟩
    · split
      · exact ⟨rfl, Or.inl rfl⟩
      · rename_i hlt
        have hlt' : s.actions_used < 3 := Nat.lt_of_not_le hlt
        split
        · exact ⟨rfl, Or.inr ⟨hlt', rfl⟩⟩
        · split
          · split
            · exact ⟨rfl, Or.inr ⟨hlt', rfl⟩⟩
            · obtain ⟨_, hb, _, _, _, hact, _, _⟩ := can_play_animal_core CARD s (CARD c)
              exact ⟨congrArg BiomeState.cn hb, Or.inl hact⟩
          · exact ⟨rfl, Or.inl rfl⟩

/-- `end_turn` keeps the invariants `cn ≥ 0` and `actionsUsed ≤ 3`. -/
theorem end_turn_pres (CARD : String → Card) (s : GameState) (choices : Nat → Option Nat)
    (hcn : 0 ≤ s.biome.cn) (hact : s.actions_used ≤ 3) :
    0 ≤ (end_turn CARD s choices).biome.cn ∧
    (end_turn CARD s choices).actions_used ≤ 3 := by
  simp only [end_turn]
  split
  · exact ⟨hcn, hact⟩
  · have h1 := resolve_hunting_pres CARD s choices
    have h2 := resolve_feeding_pres CARD (resolve_hunting CARD s choices).1
      (resolve_hunting CARD s choices).2
    have h3 := resolve_starvation_pres CARD
      (resolve_feeding CARD (resolve_hunting CARD s choices).1
        (resolve_hunting CARD s choices).2)
    have h4 := resolve_conversion_pres
      (resolve_starvation CARD (resolve_feeding CARD (resolve_hunting CARD s choices).1
        (resolve_hunting CARD s choices).2))
    have hDcn : 0 ≤ (resolve_conversion
        (resolve_starvation CARD (resolve_feeding CARD (resolve_hunting CARD s choices).1
          (resolve_hunting CARD s choices).2))).biome.cn := by
      rw [h4.1, h3.1]
      exact h2.2 (h1.1 ▸ hcn)
    have hDact : (resolve_conversion
        (resolve_starvation CARD (resolve_feeding CARD (resolve_hunting CARD s choices).1
          (resolve_hunting CARD s choices).2))).actions_used ≤ 3 := by
      rw [h4.2, h3.2, h2.1, h1.2]
      exact hact
    split
    · constructor
      · refine (start_turn_pres CARD _).2 ?_
        exact hDcn
      · rcases (start_turn_pres CARD _).1 with h | h
        · rw [h]; omega
        · rw [h]
          exact hDact
    · constructor
      · refine (start_turn_pres CARD _).2 ?_
        exact hDcn
      · rcases (start_turn_pres CARD _).1 with h | h
        · rw [h]; omega
        · rw [h]
          exact hDact

/-- Both reachability invariants hold on every reachable state. -/
theorem reachable_invariant (CARD : String → Card) :
    ∀ s, Reachable CARD s → 0 ≤ s.biome.cn ∧ s.actions_used ≤ 3 := by
  intro s h
  induction h with
  | start d1 d2 =>
    constructor
    · exact (start_turn_pres CARD _).2 (le_refl 0)
    · rcases (start_turn_pres CARD _).1 with h | h
      · rw [show (start_game_with CARD d1 d2).actions_used
            = (start_turn CARD _).actions_used from rfl, h]
        omega
      · rw [show (start_game_with CARD d1 d2).actions_used
            = (start_turn CARD _).actions_used from rfl, h]
        exact Nat.zero_le 3
  | play s c hr ih =>
    have h := play_card_pres CARD s c
    constructor
    · rw [h.1]
      exact ih.1
    · rcases h.2 with h2 | h2
      · rw [h2]
        exact ih.2
      · rw [h2.2]
        omega
  | turn s ch hr ih => exact end_turn_pres CARD s ch ih.1 ih.2

/-! ## C7 -/

/-- C7: `cn` is never negative — it is non-negative in every reachable
state, and in particular the Feeding Resolver (whose subtractions are all
guarded by `cn ≥ amount`) cannot drive a non-negative `cn` negative. -/
theorem cn_never_negative (CARD : String → Card) :
    (∀ s, Reachable CARD s → 0 ≤ s.biome.cn) ∧
    (∀ (s : GameState) (fed : List Nat),
      0 ≤ s.biome.cn → 0 ≤ (resolve_feeding CARD s fed).biome.cn) :=
  ⟨fun s h => (reachable_invariant CARD s h).1,
   fun s fed h => (resolve_feeding_pres CARD s fed).2 h⟩

/-- Witness for C7 at a fresh game and at the Scenario-C feeding state. -/
theorem cn_never_negative_witness :
    0 ≤ (start_game_with CARDtest [] []).biome.cn ∧
    0 ≤ (resolve_feeding CARDtest sC5 []).biome.cn :=
  ⟨(cn_never_negative CARDtest).1 _ (Reachable.start [] []),
   (cn_never_negative CARDtest).2 sC5 [] (by decide)⟩

/-! ## C8 -/

/-- C8 counterexample: when the confirming check succeeds, `start_turn`
declares the winner and returns before resetting `actions_used`, so the
claim's "actionsUsed is exactly 0 immediately after every startTurn call"
fails: here it is still 1. -/
theorem start_turn_skips_reset_counterexample :
    (start_turn CARDtest s8).winner = some "Jugador 1" ∧
    (start_turn CARDtest s8).actions_used = 1 := by
  decide

/-- C8 (amended): `0 ≤ actionsUsed ≤ 3` on every reachable state
(`actions_used` is a natural number, so the lower bound is inherent, and
`play_card` increments only after checking the budget is below 3), and
`actionsUsed` is exactly 0 after every `start_turn` call that does not
declare a winner; a winner-declaring `start_turn` leaves it unchanged. -/
theorem actions_bounded (CARD : String → Card) :
    (∀ s, Reachable CARD s → s.actions_used ≤ 3) ∧
    (∀ s : GameState,
      ((s.players.getD s.active_player_index defaultPlayer).pending_control = false ∨
        check_control CARD s s.active_player_index = false) →
      (start_turn CARD s).actions_used = 0) ∧
    (∀ s : GameState,
      (s.players.getD s.active_player_index defaultPlayer).pending_control = true →
      check_control CARD s s.active_player_index = true →
      (start_turn CARD s).actions_used = s.actions_used) := by
  refine ⟨fun s h => (reachable_invariant CARD s h).2, ?_, ?_⟩
  · intro s hor
    have hcond : ((s.players.getD s.active_player_index defaultPlayer).pending_control &&
        check_control CARD s s.active_player_index) = false := by
      rcases hor with h | h
      · rw [h]
        rfl
      · rw [h]
        exact Bool.and_false _
    simp only [start_turn]
    split
    · rename_i ht
      rw [hcond] at ht
      exact absurd ht (by decide)
    · rfl
  · intro s hp hc
    simp only [start_turn]
    split
    · rfl
    · rename_i hf
      rw [hp, hc] at hf
      exact absurd rfl hf

/-- Witness for the amended C8: a fresh game respects the budget, and a
non-winning `start_turn` (pending control but failed check) resets the
budget to 0. -/
theorem actions_bounded_witness :
    (start_game_with CARDtest [] []).actions_used ≤ 3 ∧
    (start_turn CARDtest sC1).actions_used = 0 :=
  ⟨(actions_bounded CARDtest).1 _ (Reachable.start [] []),
   (actions_bounded CARDtest).2.1 sC1 (Or.inr (by decide))⟩

end AnimalDominion
